import Mathlib

/-!
Verification of the invigilo exam platform's proctored exam-session logic.

The definitions below are a shallow embedding of the TypeScript source:
  * `src/app/take-test/[code]/page.tsx` (the MCQ exam page: submit guard,
    choice scoring, integrity-warning countdown, 1 Hz timer effect),
  * `src/app/take-coding-test/[code]/page.tsx` (the coding exam page:
    attempt persistence, per-question grading updates, duplicate handling),
  * `src/app/api/grade-code/route.ts` (the grading route: trivial-code
    pre-check, Judge0/AI adapter handling, fallback scoring).

JavaScript numbers are modelled as `Nat`/`Int` with exact arithmetic, strings
as Lean `String` (processed as `List Char`), nullable values as `Option`, and
thrown exceptions as explicit outcome values.  Asynchronous interleaving is
modelled by splitting `submitTest` into its synchronous prefix (the guard
check-and-set, which JavaScript runs atomically up to the first `await`) and
the subsequent persistence phase acting on an explicit database value.
-/

namespace Invigilo

/-! ### MCQ data model (take-test/[code]/page.tsx) -/

/-- The four option labels of a multiple-choice question. -/
inductive AnswerOption
  | A
  | B
  | C
  | D
deriving DecidableEq, Repr

/-- An MCQ `Question` row: `correct_answer` and `points` are the fields the
submit-time scoring reads. -/
structure Question where
  id : Nat
  correct_answer : AnswerOption
  points : Nat
deriving DecidableEq, Repr

/-- A `UserAnswer` entry of the in-memory answer store: `selected_answer` is
`null` until the user picks an option. -/
structure UserAnswer where
  question_id : Nat
  selected_answer : Option AnswerOption
deriving DecidableEq, Repr

/-- `question.points || 1`: JavaScript treats `0` as falsy, so a zero `points`
field is replaced by 1. -/
def choicePoints (q : Question) : Nat :=
  if q.points = 0 then 1 else q.points

/-- `ua.selected_answer && question.correct_answer === ua.selected_answer`
from `submitTest`: a `null` selection is falsy, otherwise the selected label
is compared with the question's correct label. -/
def answerIsCorrect (q : Question) (ua : UserAnswer) : Bool :=
  match ua.selected_answer with
  | none => false
  | some a => a == q.correct_answer

/-- `points_earned: isCorrect ? (question.points || 1) : 0` from
`submitTest`'s per-answer mapping. -/
def answerPointsEarned (q : Question) (ua : UserAnswer) : Nat :=
  if answerIsCorrect q ua then choicePoints q else 0

/-- One element of `detailedAnswers` built inside `submitTest`. -/
structure DetailedAnswer where
  question_id : Nat
  selected_answer : Option AnswerOption
  is_correct : Bool
  points_earned : Nat
deriving DecidableEq, Repr

/-- `questions.find(q => q.id === ua.question_id)`. -/
def findQuestion (qs : List Question) (qid : Nat) : Option Question :=
  qs.find? (fun q => q.id == qid)

/-- The `userAnswers.map(...)` loop of `submitTest`: builds the detailed
answer list, failing (`throw new Error`) when an answer references an unknown
question id. -/
def detailedAnswers (qs : List Question) : List UserAnswer → Option (List DetailedAnswer)
  | [] => some []
  | ua :: rest =>
    match findQuestion qs ua.question_id with
    | none => none
    | some q =>
      (detailedAnswers qs rest).map
        (fun ds =>
          { question_id := ua.question_id
            selected_answer := ua.selected_answer
            is_correct := answerIsCorrect q ua
            points_earned := answerPointsEarned q ua } :: ds)

/-- The `score` accumulator of `submitTest` (it adds exactly the
`points_earned` of each detailed answer). -/
def detailedScore (ds : List DetailedAnswer) : Nat :=
  ds.foldl (fun acc d => acc + d.points_earned) 0

/-- Final MCQ score computed inside `submitTest`, `none` when a question id
cannot be resolved. -/
def submitScore (qs : List Question) (uas : List UserAnswer) : Option Nat :=
  (detailedAnswers qs uas).map detailedScore

/-! ### MCQ session state: submit guard and integrity-warning machine -/

/-- The integrity signal that triggered the current warning. -/
inductive WarningType
  | fullscreen
  | visibility
deriving DecidableEq, Repr

/-- The client-side state of the MCQ exam page that the submit guard and the
integrity monitor read and write.  `warningTimer` is the tracked interval
handle (a `setInterval` id); `liveTimers` is the set of interval ids that are
actually still running (so that a forgotten `clearInterval` would be visible
as a stale live id); `nextTimer` numbers freshly created intervals.
`submitCalls` counts the invocations of `submitTest` that pass the guard. -/
structure MCQSession where
  submissionInProgress : Bool
  testSubmitted : Bool
  submitting : Bool
  userPresent : Bool
  testDataPresent : Bool
  testStarted : Bool
  showWarning : Option WarningType
  countdown : Nat
  warningTimer : Option Nat
  liveTimers : List Nat
  nextTimer : Nat
  submitCalls : Nat
deriving DecidableEq, Repr

/-- The synchronous prefix of `submitTest` (everything before its first
`await`): the guard check
`if (submissionInProgress.current || testSubmitted || !user || !testData) return`,
then `submissionInProgress.current = true; setSubmitting(true);
setTestSubmitted(true)` and the `clearInterval(warningTimer)` cleanup.
Returns the updated state and whether this invocation proceeds to the
asynchronous persistence phase. -/
def submitTestSync (s : MCQSession) : MCQSession × Bool :=
  if s.submissionInProgress || s.testSubmitted || !s.userPresent || !s.testDataPresent then
    (s, false)
  else
    let s1 := { s with
      submissionInProgress := true
      submitting := true
      testSubmitted := true
      submitCalls := s.submitCalls + 1 }
    match s1.warningTimer with
    | some t => ({ s1 with liveTimers := s1.liveTimers.erase t, warningTimer := none }, true)
    | none => (s1, true)

/-- `startWarningCountdown(warningType)`: ignores the signal once submission
started, otherwise shows the warning, resets the countdown to 10, clears any
existing interval and starts a fresh one. -/
def startWarningCountdown (w : WarningType) (s : MCQSession) : MCQSession :=
  if s.testSubmitted || s.submissionInProgress then s
  else
    let s1 := { s with showWarning := some w, countdown := 10 }
    let s2 :=
      match s1.warningTimer with
      | some t => { s1 with liveTimers := s1.liveTimers.erase t }
      | none => s1
    { s2 with
      warningTimer := some s2.nextTimer
      liveTimers := s2.liveTimers ++ [s2.nextTimer]
      nextTimer := s2.nextTimer + 1 }

/-- `clearWarning()`: hides the warning and tears the interval down. -/
def clearWarning (s : MCQSession) : MCQSession :=
  let s1 := { s with showWarning := none }
  match s1.warningTimer with
  | some t => { s1 with liveTimers := s1.liveTimers.erase t, warningTimer := none }
  | none => s1

/-- One firing of the countdown interval with id `t` (the `setInterval`
callback): only a still-live interval fires; at `countdown <= 1` it clears
itself and calls `submitTest`, otherwise it decrements the countdown. -/
def countdownTick (t : Nat) (s : MCQSession) : MCQSession :=
  if t ∈ s.liveTimers then
    if s.countdown ≤ 1 then
      let s1 := { s with liveTimers := s.liveTimers.erase t, warningTimer := none, countdown := 0 }
      (submitTestSync s1).1
    else
      { s with countdown := s.countdown - 1 }
  else s

/-- `handleFullscreenChange`: a fullscreen exit while the test runs starts the
warning countdown; returning to fullscreen while the fullscreen warning shows
clears it. -/
def handleFullscreenChange (isFs : Bool) (s : MCQSession) : MCQSession :=
  if !isFs && s.testStarted && !s.submitting && !s.testSubmitted then
    startWarningCountdown WarningType.fullscreen s
  else if isFs && s.showWarning == some WarningType.fullscreen then
    clearWarning s
  else s

/-- `handleVisibilityChange`: hiding the tab while the test runs starts the
warning countdown; returning while the visibility warning shows clears it. -/
def handleVisibilityChange (hidden : Bool) (s : MCQSession) : MCQSession :=
  if hidden && s.testStarted && !s.submitting && !s.testSubmitted then
    startWarningCountdown WarningType.visibility s
  else if !hidden && s.showWarning == some WarningType.visibility then
    clearWarning s
  else s

/-- One second of real time for the warning countdown: the tracked interval
(if any) fires. -/
def tickActive (s : MCQSession) : MCQSession :=
  match s.warningTimer with
  | some t => countdownTick t s
  | none => s

/-- `n` seconds of countdown ticks. -/
def ticks : Nat → MCQSession → MCQSession
  | 0, s => s
  | n + 1, s => tickActive (ticks n s)

/-- The events that can reach the MCQ session: the two integrity signals, a
firing of some interval id, and a manual/timer submit trigger. -/
inductive MCQEvent
  | fullscreenChange (isFs : Bool)
  | visibilityChange (hidden : Bool)
  | intervalTick (t : Nat)
  | submitTrigger
deriving DecidableEq, Repr

/-- Dispatch of a single event to the handlers above. -/
def mcqStep : MCQEvent → MCQSession → MCQSession
  | .fullscreenChange b, s => handleFullscreenChange b s
  | .visibilityChange b, s => handleVisibilityChange b s
  | .intervalTick t, s => countdownTick t s
  | .submitTrigger, s => (submitTestSync s).1

/-- Run a sequence of events. -/
def mcqRun : List MCQEvent → MCQSession → MCQSession
  | [], s => s
  | e :: es, s => mcqRun es (mcqStep e s)

/-- The interval ids a tracked handle accounts for. -/
def timerList : Option Nat → List Nat
  | none => []
  | some t => [t]

/-- The running intervals are exactly the one tracked by `warningTimer`:
every started countdown was either torn down or is the tracked one. -/
def TimerInv (s : MCQSession) : Prop :=
  s.liveTimers = timerList s.warningTimer

/-! ### Persistence layer (test_attempts / user_answers tables) -/

/-- A `test_attempts` row as written by the MCQ `submitTest` (its inserts
always carry `completed_at`, so `completed` records whether `completed_at`
is set). -/
structure AttemptRow where
  id : Nat
  testId : Nat
  userId : Nat
  score : Nat
  totalQuestions : Nat
  timeTaken : Nat
  completed : Bool
deriving DecidableEq, Repr

/-- A `user_answers` row inserted by the MCQ `submitTest`. -/
structure AnswerRow where
  attemptId : Nat
  questionId : Nat
  selectedAnswer : AnswerOption
  isCorrect : Bool
  pointsEarned : Nat
deriving DecidableEq, Repr

/-- The relevant database state: attempt rows, answer rows, and the id the
next insert receives. -/
structure DB where
  attempts : List AttemptRow
  userAnswers : List AnswerRow
  nextAttemptId : Nat
deriving DecidableEq, Repr

/-- `detailedAnswers.filter(a => a.selected_answer !== null).map(...)`: the
`user_answers` rows inserted for one attempt. -/
def answerRowsOf (attId : Nat) (ds : List DetailedAnswer) : List AnswerRow :=
  ds.filterMap (fun d =>
    match d.selected_answer with
    | none => none
    | some a =>
      some { attemptId := attId
             questionId := d.question_id
             selectedAnswer := a
             isCorrect := d.is_correct
             pointsEarned := d.points_earned })

/-- Outcome of the MCQ submit persistence phase. -/
inductive MCQOutcome
  | redirectedToViewMarks
  | completed (score : Nat)
  | errored
deriving DecidableEq, Repr

/-- The asynchronous phase of the MCQ `submitTest` (everything after the
guard): look for an existing `test_attempts` row for this (test, user) pair
and redirect to `/view-marks` if one exists; otherwise score the answers,
insert the completed attempt row, then insert the answer rows for the
answered questions. -/
def mcqSubmitAsync (testId userId : Nat) (qs : List Question) (uas : List UserAnswer)
    (timeTaken : Nat) (db : DB) : DB × MCQOutcome :=
  if db.attempts.any (fun r => r.testId == testId && r.userId == userId) then
    (db, .redirectedToViewMarks)
  else
    match detailedAnswers qs uas with
    | none => (db, .errored)
    | some ds =>
      let att : AttemptRow :=
        { id := db.nextAttemptId
          testId := testId
          userId := userId
          score := detailedScore ds
          totalQuestions := qs.length
          timeTaken := timeTaken
          completed := true }
      ({ attempts := db.attempts ++ [att]
         userAnswers := db.userAnswers ++ answerRowsOf db.nextAttemptId ds
         nextAttemptId := db.nextAttemptId + 1 }, .completed (detailedScore ds))

/-- Completed attempt rows stored for a (test, user) pair. -/
def completedCount (db : DB) (testId userId : Nat) : Nat :=
  (db.attempts.filter (fun r => r.testId == testId && r.userId == userId && r.completed)).length

/-! ### Timer (1 Hz effect of both exam pages, resume math of the coding page) -/

/-- The state the timer effect reads and writes.  `submitCalls` counts the
invocations of `submitTest` made by the interval callback (the callback sets
`testSubmitted` synchronously through `submitTest`, so at most one call can
happen). -/
structure TimerState where
  testStarted : Bool
  timeLeft : Nat
  testSubmitted : Bool
  submitCalls : Nat
deriving DecidableEq, Repr

/-- The gate of the timer effect:
`if (!testStarted || timeLeft <= 0 || testSubmitted) return` — the interval
only runs while this is true. -/
def timerStarts (s : TimerState) : Bool :=
  s.testStarted && decide (0 < s.timeLeft) && !s.testSubmitted

/-- The interval callback: `prev <= 1 && !testSubmitted` triggers
`submitTest('timeUp')` (which sets the submitted flag synchronously) and
pins the display at 0; otherwise the counter is decremented by one. -/
def timerIntervalTick (s : TimerState) : TimerState :=
  if s.timeLeft ≤ 1 && !s.testSubmitted then
    { s with timeLeft := 0, testSubmitted := true, submitCalls := s.submitCalls + 1 }
  else
    { s with timeLeft := s.timeLeft - 1 }

/-- One second of wall-clock time: the interval fires iff the effect gate
admits it. -/
def timerSecond (s : TimerState) : TimerState :=
  if timerStarts s then timerIntervalTick s else s

/-- `n` seconds of wall-clock time for the timer. -/
def runSeconds : Nat → TimerState → TimerState
  | 0, s => s
  | n + 1, s => runSeconds n (timerSecond s)

/-- A started, not-yet-submitted timer with `k` seconds displayed and `c`
past submit calls. -/
def timerRunning (k c : Nat) : TimerState :=
  { testStarted := true, timeLeft := k, testSubmitted := false, submitCalls := c }

/-- The timer after its submit fired: display pinned at 0, submitted flag
set, one more submit call. -/
def timerDone (c : Nat) : TimerState :=
  { testStarted := true, timeLeft := 0, testSubmitted := true, submitCalls := c + 1 }

/-- The resume computation of the coding page's `loadTestData`:
`Math.max(0, test.time_limit * 60 - (Date.now() - startedAt) / 1000)`
(times in whole seconds). -/
def loadRemaining (timeLimitMin : Nat) (startedAt now : Int) : Int :=
  max 0 ((timeLimitMin : Int) * 60 - (now - startedAt))

/-- `setTimeLeft(Math.floor(remaining))`. -/
def loadTimeLeft (timeLimitMin : Nat) (startedAt now : Int) : Nat :=
  (loadRemaining timeLimitMin startedAt now).toNat

/-! ### Coding-test answer store and attempt persistence -/

/-- A `UserCodingAnswer`: `points_earned` is optional in the source and read
through `|| 0`. -/
structure CodingAnswer where
  question_id : Nat
  points_earned : Option Nat
deriving DecidableEq, Repr

/-- `answer.points_earned || 0`. -/
def answerPoints (ua : CodingAnswer) : Nat :=
  ua.points_earned.getD 0

/-- `userAnswers.reduce((sum, answer) => sum + (answer.points_earned || 0), 0)`
— the score recomputed by `createOrUpdateAttempt` and by `submitTest`. -/
def sumPoints (l : List CodingAnswer) : Nat :=
  l.foldl (fun acc ua => acc + answerPoints ua) 0

/-- The total recomputed inside `runCode` after grading question `qid`:
the reduce substitutes the fresh `pointsEarned` for the graded question and
keeps the stored value for every other answer. -/
def runCodeTotal (l : List CodingAnswer) (qid pts : Nat) : Nat :=
  l.foldl (fun acc ua => if ua.question_id == qid then acc + pts else acc + answerPoints ua) 0

/-- `setUserAnswers(prev => prev.map(...))` in `runCode`: overwrite the graded
question's `points_earned`. -/
def applyGrading (l : List CodingAnswer) (qid pts : Nat) : List CodingAnswer :=
  l.map (fun ua => if ua.question_id == qid then { ua with points_earned := some pts } else ua)

/-- The answer store plus the last score written to the `test_attempts` row
(`none` before the first persistence). -/
structure CodingSession where
  answers : List CodingAnswer
  persistedScore : Option Nat
deriving DecidableEq, Repr

/-- The two operations that persist attempt state during a coding attempt:
the autosave path (`saveProgress` → `createOrUpdateAttempt`) and the
per-question grading path inside `runCode` (upsert of the answer row followed
by the `test_attempts.score` update). -/
inductive SessionOp
  | recordProgress
  | gradingResult (qid pts : Nat)
deriving DecidableEq, Repr

/-- Effect of one persistence operation on the session. -/
def sessionStep : SessionOp → CodingSession → CodingSession
  | .recordProgress, s =>
    { s with persistedScore := some (sumPoints s.answers) }
  | .gradingResult qid pts, s =>
    { answers := applyGrading s.answers qid pts
      persistedScore := some (runCodeTotal s.answers qid pts) }

/-- Run a sequence of persistence operations. -/
def sessionRun : List SessionOp → CodingSession → CodingSession
  | [], s => s
  | op :: ops, s => sessionRun ops (sessionStep op s)

/-- The persisted score (when one exists) matches the sum of the current
per-question `points_earned`. -/
def scoreOk (s : CodingSession) : Bool :=
  match s.persistedScore with
  | none => true
  | some sc => sc == sumPoints s.answers

/-! ### Grading route (api/grade-code/route.ts) -/

/-- JavaScript regex whitespace (`\s`) restricted to the characters that can
occur in the submissions and templates at hand. -/
def jsWhitespace (c : Char) : Bool :=
  c = ' ' || c = '\t' || c = '\n' || c = '\r' || c = '\x0b' || c = '\x0c'

/-- Drop leading whitespace. -/
def dropWs (l : List Char) : List Char :=
  l.dropWhile jsWhitespace

/-- `String.prototype.trim()`: drop whitespace at both ends. -/
def trimChars (l : List Char) : List Char :=
  ((dropWs ((dropWs l).reverse)).reverse)

/-- `code.split('\n')`. -/
def splitOnNl : List Char → List (List Char)
  | [] => [[]]
  | c :: rest =>
    if c = '\n' then [] :: splitOnNl rest
    else
      match splitOnNl rest with
      | [] => [[c]]
      | l :: ls => (c :: l) :: ls

/-- `/^(?!\s*(\/\/|#|\/\*|\*|\s*$)).+/.test(line)`: the line has at least one
character and, after its leading whitespace, does not start a comment
(`//`, `/*`, `#`, `*`) and is not whitespace-only. -/
def substantialLine (l : List Char) : Bool :=
  match dropWs l with
  | [] => false
  | '/' :: '/' :: _ => false
  | '/' :: '*' :: _ => false
  | '#' :: _ => false
  | '*' :: _ => false
  | _ => true

/-- `isCodeSubstantial` from the grading route: false for empty/whitespace
code, otherwise true iff some line is neither blank nor a comment. -/
def isCodeSubstantial (code : String) : Bool :=
  if (trimChars code.data).isEmpty then false
  else (splitOnNl code.data).any substantialLine

/-- `DEFAULT_CODE_TEMPLATES` from the coding test page, keyed by Judge0
language id (50 C, 54 C++, 62 Java, 63 JavaScript, 71 Python). -/
def DEFAULT_CODE_TEMPLATES : Nat → String
  | 50 => "#include <stdio.h>\n\nint main() \x7b\n    // Your code here\n    return 0;\n\x7d"
  | 54 => "#include <iostream>\nusing namespace std;\n\nint main() \x7b\n    // Your code here\n    return 0;\n\x7d"
  | 62 => "public class Solution \x7b\n    public static void main(String[] args) \x7b\n        // Your code here\n    \x7d\n\x7d"
  | 63 => "// Your code here\nconsole.log(\"Hello World\");"
  | 71 => "# Your code here\nprint(\"Hello World\")"
  | _ => ""

/-- The Judge0 call's visible result: a status id with description, or a
thrown/failed request (`Judge0 Service Error`). -/
inductive JudgeOutcome
  | ok (statusId : Nat) (description : String)
  | svcError
deriving DecidableEq, Repr

/-- The `compilationStatus` computed by the route's POST handler:
`status.id <= 3` is `Accepted`; otherwise `status.description ||
'Compilation Error'`; a thrown Judge0 call yields `Judge0 Service Error`. -/
def compileStatusOf : JudgeOutcome → String
  | .ok sid desc =>
    if sid ≤ 3 then "Accepted"
    else if desc = "" then "Compilation Error" else desc
  | .svcError => "Judge0 Service Error"

/-- `judgeAccepted` holds when the execution verdict indicates successful
compilation (`status.id <= 3`). -/
def judgeAccepted : JudgeOutcome → Bool
  | .ok sid _ => decide (sid ≤ 3)
  | .svcError => false

/-- A well-formed Judge0 result never reports the literal description
`Accepted` together with a failing status id. -/
def judgeDescConsistent : JudgeOutcome → Prop
  | .ok sid desc => 3 < sid → desc ≠ "Accepted"
  | .svcError => True

/-- A successfully parsed AI grading response (all score fields numeric, as
the prompt's JSON schema demands; `evaluateWithAI` throws when `total_score`
is not a number). -/
structure AIParsed where
  total_score : Int
  correctness_score : Int
  quality_score : Int
  efficiency_score : Int
  syntax_score : Int
  understanding_score : Int
  feedback : String
  suggestions : String
deriving DecidableEq, Repr

/-- The value `evaluateWithAI` returns. -/
structure AIEval where
  total_score : Int
  correctness : Int
  code_quality : Int
  efficiency : Int
  syntax_score : Int
  understanding : Int
  overall_feedback : String
  suggestions : String
deriving DecidableEq, Repr

/-- The post-parse logic of `evaluateWithAI`: when
`correctness_score < question.points * 0.4 * 0.1` (exactly:
`25 * correctness_score < points`, since `0.4 * 0.1 = 1/25`), the secondary
scores are zeroed, the feedback is prefixed with an explanation and the total
is recomputed as `correctness_score + syntax_score`; the returned total is
always clamped by `Math.min(total_score, question.points)`. -/
def evalPost (points : Int) (p : AIParsed) : AIEval :=
  let override := p.correctness_score * 25 < points
  let quality := if override then 0 else p.quality_score
  let efficiency := if override then 0 else p.efficiency_score
  let understanding := if override then 0 else p.understanding_score
  let fb :=
    if override then
      "The solution was not correct, so points for code quality, efficiency, and problem understanding were not awarded. " ++ p.feedback
    else p.feedback
  let total := if override then p.correctness_score + p.syntax_score else p.total_score
  { total_score := min total points
    correctness := p.correctness_score
    code_quality := quality
    efficiency := efficiency
    syntax_score := p.syntax_score
    understanding := understanding
    overall_feedback := if fb = "" then "Evaluation completed" else fb
    suggestions := if p.suggestions = "" then "Keep practicing!" else p.suggestions }

/-- What the AI round trip produced: a parsed response, or any failure
(service error, no JSON object, non-numeric `total_score`), which
`evaluateWithAI` turns into a thrown error. -/
inductive AIOutcome
  | ok (p : AIParsed)
  | failed
deriving DecidableEq, Repr

/-- `Math.round(points * 0.1)` for an integer `points` (exact arithmetic:
half rounds up, i.e. `floor((points + 5) / 10)`). -/
def roundTenth (points : Int) : Int :=
  Int.fdiv (points + 5) 10

/-- The observable result of the route's POST handler.  `judgeCalled` and
`aiCalled` record whether the execution adapter and the grading adapter were
invoked (a network round trip was attempted). -/
structure RouteResult where
  badRequest : Bool
  success : Bool
  compilationStatus : String
  totalScore : Int
  judgeCalled : Bool
  aiCalled : Bool
  feedback : String
deriving DecidableEq, Repr

/-- The POST handler of `api/grade-code/route.ts`:
1. `if (!userCode || !languageId || !question)` → 400 (empty string and id 0
   are falsy);
2. `isCodeSubstantial` pre-check → canned zero-score response without calling
   either adapter;
3. Judge0 execution (errors mapped to `Judge0 Service Error`), then AI
   grading; an AI failure falls back to
   `compilationStatus === 'Accepted' ? Math.round(points * 0.1) : 0`. -/
def gradeRoute (userCode : String) (langId : Nat) (points : Int)
    (judge : JudgeOutcome) (ai : AIOutcome) : RouteResult :=
  if userCode = "" ∨ langId = 0 then
    { badRequest := true, success := false, compilationStatus := "", totalScore := 0
      judgeCalled := false, aiCalled := false, feedback := "Missing required fields" }
  else if isCodeSubstantial userCode = false then
    { badRequest := false, success := true
      compilationStatus := "No substantial code submitted.", totalScore := 0
      judgeCalled := false, aiCalled := false
      feedback := "Your submission was either empty or only contained comments. Please write a functional solution." }
  else
    let status := compileStatusOf judge
    match ai with
    | .ok p =>
      let ev := evalPost points p
      { badRequest := false, success := true, compilationStatus := status
        totalScore := ev.total_score, judgeCalled := true, aiCalled := true
        feedback := ev.overall_feedback }
    | .failed =>
      { badRequest := false, success := true, compilationStatus := status
        totalScore := if status = "Accepted" then roundTenth points else 0
        judgeCalled := true, aiCalled := true
        feedback := "AI evaluation was unavailable. Score is based solely on successful compilation." }

/-! ### Client-side `runCode` of the coding test page -/

/-- The template check in `runCode`:
`currentAnswer.code_submission.trim() === defaultTemplate?.trim()` — a
submission identical (up to outer whitespace) to the unmodified language
template is blocked before any network request. -/
def runCodeBlocked (sub : String) (langId : Nat) : Bool :=
  trimChars sub.data == trimChars (DEFAULT_CODE_TEMPLATES langId).data

/-- `Math.max(0, Math.min(currentQ.points, result.totalScore || 0))`. -/
def clampPoints (qPoints : Nat) (total : Int) : Nat :=
  (max 0 (min (qPoints : Int) total)).toNat

/-- The `runCode` flow around the fetch: an empty submission is rejected with
an alert, a template-identical submission is rejected with an alert, and
otherwise the route is called and the graded question's `points_earned` is
overwritten with the clamped score.  Returns the updated answers and whether
the fetch to `/api/grade-code` was made. -/
def runCodeStep (answers : List CodingAnswer) (qid : Nat) (sub : String)
    (langId : Nat) (qPoints : Nat) (r : RouteResult) : List CodingAnswer × Bool :=
  if sub = "" then (answers, false)
  else if runCodeBlocked sub langId then (answers, false)
  else (applyGrading answers qid (clampPoints qPoints r.totalScore), true)

/-! ### Coding-test submit: duplicate handling -/

/-- The guard flags of the coding test page's `submitTest`. -/
structure CodingFlags where
  submissionInProgress : Bool
  testSubmitted : Bool
  submitting : Bool
  userPresent : Bool
  testDataPresent : Bool
deriving DecidableEq, Repr

/-- What the coding `submitTest` leaves behind. -/
structure CodingSubmitResult where
  flags : CodingFlags
  errorAlert : Option String
  redirectedToViewMarks : Bool
  attemptInserted : Bool
deriving DecidableEq, Repr

/-- The coding test page's `submitTest`: after the guard, the completed
attempt row is inserted; a unique-constraint violation (code 23505, meaning a
completed attempt already exists for this (test, user) pair) is rethrown as
`You have already submitted this test.`, which the catch block surfaces as an
`Error submitting test: ...` alert, resetting the guard and performing no
redirect.  A successful insert alerts the score and redirects to
`/view-marks`. -/
def codingSubmitTest (f : CodingFlags) (duplicateConflict : Bool) : CodingSubmitResult :=
  if f.submissionInProgress || f.testSubmitted || !f.userPresent || !f.testDataPresent then
    { flags := f, errorAlert := none, redirectedToViewMarks := false, attemptInserted := false }
  else
    let f1 := { f with submissionInProgress := true, submitting := true, testSubmitted := true }
    if duplicateConflict then
      { flags := { f1 with submissionInProgress := false, submitting := false, testSubmitted := false }
        errorAlert := some "Error submitting test: You have already submitted this test."
        redirectedToViewMarks := false
        attemptInserted := false }
    else
      { flags := f1, errorAlert := none, redirectedToViewMarks := true, attemptInserted := true }

/-! ### Scenario states used by the theorems -/

/-- An in-progress MCQ session with no active warning countdown: the test is
started, nothing was submitted, and no interval is live.  The warning banner
contents `sw`/`cd` and the number of past submit calls `sc` are arbitrary. -/
def warnInit (sw : Option WarningType) (cd sc : Nat) : MCQSession :=
  { submissionInProgress := false
    testSubmitted := false
    submitting := false
    userPresent := true
    testDataPresent := true
    testStarted := true
    showWarning := sw
    countdown := cd
    warningTimer := none
    liveTimers := []
    nextTimer := 0
    submitCalls := sc }

/-- A non-compliant integrity signal reaching the event handlers:
`fullscreenchange` with fullscreen absent, or `visibilitychange` with the
tab hidden. -/
def signalLeave (w : WarningType) (s : MCQSession) : MCQSession :=
  match w with
  | .fullscreen => handleFullscreenChange false s
  | .visibility => handleVisibilityChange true s

/-- The signal returning to the compliant state: fullscreen re-entered, or
the tab visible again. -/
def signalReturn (w : WarningType) (s : MCQSession) : MCQSession :=
  match w with
  | .fullscreen => handleFullscreenChange true s
  | .visibility => handleVisibilityChange false s

/-- The session right after signal `w` started the warning countdown from
`warnInit`: warning shown, countdown at `cd`, interval 0 running. -/
def warnActive (w : WarningType) (sc cd : Nat) : MCQSession :=
  { submissionInProgress := false
    testSubmitted := false
    submitting := false
    userPresent := true
    testDataPresent := true
    testStarted := true
    showWarning := some w
    countdown := cd
    warningTimer := some 0
    liveTimers := [0]
    nextTimer := 1
    submitCalls := sc }

/-- The session after the warning countdown expired and forced submission:
the guard is set, the interval is torn down, and exactly one extra submit
call happened. -/
def warnDone (w : WarningType) (sc : Nat) : MCQSession :=
  { submissionInProgress := true
    testSubmitted := true
    submitting := true
    userPresent := true
    testDataPresent := true
    testStarted := true
    showWarning := some w
    countdown := 0
    warningTimer := none
    liveTimers := []
    nextTimer := 1
    submitCalls := sc + 1 }

/-- A session in the middle of a fullscreen warning with 5 seconds left on
the countdown. -/
def warningStateFive : MCQSession :=
  { submissionInProgress := false
    testSubmitted := false
    submitting := false
    userPresent := true
    testDataPresent := true
    testStarted := true
    showWarning := some WarningType.fullscreen
    countdown := 5
    warningTimer := some 0
    liveTimers := [0]
    nextTimer := 1
    submitCalls := 0 }

/-- Coding-submit guard flags of a running, not-yet-submitted attempt. -/
def cleanFlags : CodingFlags :=
  { submissionInProgress := false
    testSubmitted := false
    submitting := false
    userPresent := true
    testDataPresent := true }

/-- A database already holding a completed attempt for test 5 by user 9. -/
def dupDB : DB :=
  { attempts := [{ id := 0, testId := 5, userId := 9, score := 4,
                   totalQuestions := 1, timeTaken := 2, completed := true }]
    userAnswers := []
    nextAttemptId := 1 }

/-- A parsed AI response with a near-zero correctness component. -/
def aiDemo : AIParsed :=
  { total_score := 9
    correctness_score := 0
    quality_score := 2
    efficiency_score := 2
    syntax_score := 1
    understanding_score := 1
    feedback := ""
    suggestions := "" }

/-- A four-point question whose correct label is B. -/
def qB4 : Question :=
  { id := 1, correct_answer := AnswerOption.B, points := 4 }

/-! ### Helper lemmas -/

/-- The substitution-based total computed inside `runCode` coincides with the
sum of `points_earned` over the updated answer list. -/
theorem runCodeTotal_eq (l : List CodingAnswer) (qid pts : Nat) :
    runCodeTotal l qid pts = sumPoints (applyGrading l qid pts) := by
  unfold runCodeTotal sumPoints applyGrading
  have key : ∀ (l : List CodingAnswer) (acc : Nat),
      l.foldl (fun acc ua => if ua.question_id == qid then acc + pts else acc + answerPoints ua) acc
        = (l.map (fun ua =>
            if ua.question_id == qid then { ua with points_earned := some pts } else ua)).foldl
            (fun acc ua => acc + answerPoints ua) acc := by
    intro l
    induction l with
    | nil => intro acc; rfl
    | cons ua rest ih =>
      intro acc
      by_cases h : (ua.question_id == qid) = true
      · simp only [List.foldl_cons, List.map_cons]
        rw [if_pos h, if_pos h, ih]
        rfl
      · simp only [List.foldl_cons, List.map_cons]
        rw [if_neg h, if_neg h]
        exact ih _
  exact key l 0

/-- A judge result with a consistent description yields the status string
`Accepted` exactly when its status id indicates successful compilation. -/
theorem acceptedStatus_iff (j : JudgeOutcome) (hj : judgeDescConsistent j) :
    compileStatusOf j = "Accepted" ↔ judgeAccepted j = true := by
  cases j with
  | ok sid desc =>
    simp only [compileStatusOf, judgeAccepted, judgeDescConsistent] at hj ⊢
    by_cases h : sid ≤ 3
    · simp [h]
    · rw [if_neg h]
      have hd : desc ≠ "Accepted" := hj (by omega)
      by_cases hblank : desc = ""
      · simp [hblank, h]
      · simp [hblank, h, hd]
  | svcError =>
    simp [compileStatusOf, judgeAccepted]

/-- Warning ticks compose additively. -/
theorem ticks_add (a b : Nat) (s : MCQSession) :
    ticks (a + b) s = ticks a (ticks b s) := by
  induction a with
  | zero => rw [Nat.zero_add]; rfl
  | succ a ih =>
    rw [Nat.succ_add]
    show tickActive (ticks (a + b) s) = tickActive (ticks a (ticks b s))
    rw [ih]

/-- With no tracked interval, countdown ticks are no-ops. -/
theorem ticks_none (m : Nat) (s : MCQSession) (h : s.warningTimer = none) :
    ticks m s = s := by
  induction m with
  | zero => rfl
  | succ m ih =>
    show tickActive (ticks m s) = s
    rw [ih]
    unfold tickActive
    rw [h]

/-- A non-compliant signal on a clear in-progress session yields the
canonical active-warning state. -/
theorem signalLeave_warnInit (w : WarningType) (sw : Option WarningType) (cd sc : Nat) :
    signalLeave w (warnInit sw cd sc) = warnActive w sc 10 := by
  cases w <;> rfl

/-- The first `j ≤ 9` seconds of the warning countdown only decrement the
counter. -/
theorem ticks_warnActive (w : WarningType) (sc : Nat) :
    ∀ j, j ≤ 9 → ticks j (warnActive w sc 10) = warnActive w sc (10 - j) := by
  intro j
  induction j with
  | zero => intro _; rfl
  | succ j ih =>
    intro hj
    show tickActive (ticks j (warnActive w sc 10)) = warnActive w sc (10 - (j + 1))
    rw [ih (by omega)]
    unfold tickActive warnActive countdownTick
    simp only [Option.some.injEq]
    rw [if_pos (by simp), if_neg (by omega)]
    simp only [MCQSession.mk.injEq, and_true, true_and]
    omega

/-- At the tenth second the countdown expires, tears the interval down and
performs exactly one guarded submit call. -/
theorem ticks10_warnActive (w : WarningType) (sc : Nat) :
    ticks 10 (warnActive w sc 10) = warnDone w sc := by
  show tickActive (ticks 9 (warnActive w sc 10)) = warnDone w sc
  rw [ticks_warnActive w sc 9 (by omega)]
  rfl

/-- Once the timer effect's gate is closed, later seconds change nothing. -/
theorem runSeconds_stuck (s : TimerState) (h : timerStarts s = false) :
    ∀ m, runSeconds m s = s := by
  intro m
  induction m with
  | zero => rfl
  | succ m ih =>
    show runSeconds m (timerSecond s) = s
    rw [timerSecond, h]
    exact ih

/-- A running timer with `k > 0` seconds left submits exactly once after any
`n ≥ k` seconds and then stays terminal. -/
theorem timer_countdown_run :
    ∀ (k c n : Nat), 0 < k → k ≤ n →
      runSeconds n (timerRunning k c) = timerDone c := by
  intro k
  induction k with
  | zero => intro c n h; omega
  | succ k ih =>
    intro c n _ hn
    obtain ⟨m, rfl⟩ : ∃ m, n = m + 1 := ⟨n - 1, by omega⟩
    show runSeconds m (timerSecond (timerRunning (k + 1) c)) = _
    by_cases hk0 : k = 0
    · subst hk0
      have h1 : timerSecond (timerRunning 1 c) = timerDone c := by
        simp [timerSecond, timerStarts, timerIntervalTick, timerRunning, timerDone]
      rw [h1]
      exact runSeconds_stuck _ (by simp [timerStarts, timerDone]) m
    · have h1 : timerSecond (timerRunning (k + 1) c) = timerRunning k c := by
        simp [timerSecond, timerStarts, timerIntervalTick, timerRunning]
        omega
      rw [h1]
      exact ih c m (by omega) (by omega)

/-- Before the counter reaches zero the timer only decrements: after `n < k`
seconds, `k - n` seconds remain and no submit happened. -/
theorem timer_below :
    ∀ (n k c : Nat), n < k →
      runSeconds n (timerRunning k c) = timerRunning (k - n) c := by
  intro n
  induction n with
  | zero => intro k c _; rfl
  | succ n ih =>
    intro k c hn
    show runSeconds n (timerSecond (timerRunning k c)) = _
    have h1 : timerSecond (timerRunning k c) = timerRunning (k - 1) c := by
      simp [timerSecond, timerStarts, timerIntervalTick, timerRunning]
      rw [if_pos (show 0 < k by omega), if_neg (show ¬ k ≤ 1 by omega)]
    rw [h1]
    rw [ih (k - 1) c (by omega)]
    simp only [timerRunning, TimerState.mk.injEq, and_true, true_and]
    omega

/-- A guarded submit call keeps the one-tracked-interval invariant. -/
theorem inv_submitSync (s : MCQSession) (h : TimerInv s) :
    TimerInv (submitTestSync s).1 := by
  unfold submitTestSync
  split
  · exact h
  · unfold TimerInv at h ⊢
    cases hw : s.warningTimer with
    | none => simp_all [timerList]
    | some t => simp_all [timerList]

/-- Starting a warning countdown keeps the one-tracked-interval invariant. -/
theorem inv_startWarning (w : WarningType) (s : MCQSession) (h : TimerInv s) :
    TimerInv (startWarningCountdown w s) := by
  unfold startWarningCountdown
  split
  · exact h
  · unfold TimerInv at h ⊢
    cases hw : s.warningTimer with
    | none => simp_all [timerList]
    | some t => simp_all [timerList]

/-- Clearing the warning keeps the one-tracked-interval invariant. -/
theorem inv_clearWarning (s : MCQSession) (h : TimerInv s) :
    TimerInv (clearWarning s) := by
  unfold clearWarning TimerInv at *
  cases hw : s.warningTimer with
  | none => simp_all [timerList]
  | some t => simp_all [timerList]

/-- A firing interval keeps the one-tracked-interval invariant. -/
theorem inv_countdownTick (t : Nat) (s : MCQSession) (h : TimerInv s) :
    TimerInv (countdownTick t s) := by
  unfold countdownTick
  split
  · rename_i hmem
    split
    · apply inv_submitSync
      unfold TimerInv at h ⊢
      cases hw : s.warningTimer with
      | none => rw [h, hw] at hmem; simp [timerList] at hmem
      | some w =>
        rw [h, hw] at hmem
        simp only [timerList, List.mem_singleton] at hmem
        subst hmem
        simp [h, hw, timerList]
    · exact h
  · exact h

/-- Every event of the MCQ page keeps the one-tracked-interval invariant. -/
theorem inv_mcqStep (e : MCQEvent) (s : MCQSession) (h : TimerInv s) :
    TimerInv (mcqStep e s) := by
  cases e with
  | fullscreenChange b =>
    show TimerInv (handleFullscreenChange b s)
    unfold handleFullscreenChange
    split
    · exact inv_startWarning _ _ h
    · split
      · exact inv_clearWarning _ h
      · exact h
  | visibilityChange b =>
    show TimerInv (handleVisibilityChange b s)
    unfold handleVisibilityChange
    split
    · exact inv_startWarning _ _ h
    · split
      · exact inv_clearWarning _ h
      · exact h
  | intervalTick t => exact inv_countdownTick t s h
  | submitTrigger => exact inv_submitSync s h

/-- The invariant is preserved along every event sequence. -/
theorem inv_mcqRun (evs : List MCQEvent) (s : MCQSession) (h : TimerInv s) :
    TimerInv (mcqRun evs s) := by
  induction evs generalizing s with
  | nil => exact h
  | cons e es ih => exact ih _ (inv_mcqStep e s h)

/-! ### Claim theorems -/

/-- Claim C6: at submit time a choice question contributes its `points` to
the score exactly when the selected option equals the question's correct
label, and contributes 0 otherwise (including when nothing was selected).
The comparison lives in `answerPointsEarned`/`submitScore`, the submit-time
scoring of `submitTest`; the answer store itself (`UserAnswer`) holds only
the selection. -/
theorem choice_scoring_iff (q : Question) (ua : UserAnswer)
    (hp : 0 < q.points) (hid : ua.question_id = q.id) :
    answerPointsEarned q ua
      = (if ua.selected_answer = some q.correct_answer then q.points else 0)
    ∧ submitScore [q] [ua]
      = some (if ua.selected_answer = some q.correct_answer then q.points else 0) := by
  have hcp : choicePoints q = q.points := by
    unfold choicePoints
    rw [if_neg (by omega)]
  have h1 : answerPointsEarned q ua
      = (if ua.selected_answer = some q.correct_answer then q.points else 0) := by
    unfold answerPointsEarned answerIsCorrect
    cases hsel : ua.selected_answer with
    | none => simp
    | some a =>
      by_cases h : a = q.correct_answer
      · rw [if_pos (by simp [h]), if_pos (by simp [h]), hcp]
      · rw [if_neg (by simp [h]), if_neg (by simp [h])]
  refine ⟨h1, ?_⟩
  have h2 : detailedAnswers [q] [ua]
      = some [{ question_id := ua.question_id
                selected_answer := ua.selected_answer
                is_correct := answerIsCorrect q ua
                points_earned := answerPointsEarned q ua }] := by
    unfold detailedAnswers findQuestion
    simp [hid, detailedAnswers]
  unfold submitScore
  rw [h2]
  simp [detailedScore, h1]

/-- Claim C6 witness: selecting B on a four-point question whose correct
label is B contributes 4; the theorem is instantiated at that input. -/
theorem choice_scoring_iff_witness :
    answerPointsEarned qB4 { question_id := 1, selected_answer := some AnswerOption.B }
      = (if (some AnswerOption.B : Option AnswerOption) = some qB4.correct_answer
          then qB4.points else 0)
    ∧ submitScore [qB4] [{ question_id := 1, selected_answer := some AnswerOption.B }]
      = some (if (some AnswerOption.B : Option AnswerOption) = some qB4.correct_answer
          then qB4.points else 0) :=
  choice_scoring_iff qB4 { question_id := 1, selected_answer := some AnswerOption.B }
    (by decide) (by decide)

/-- Claim C10: when the parsed correctness component is below 10 percent of
its possible share (`correctness_score < points * 0.4 * 0.1`, i.e.
`25 * correctness_score < points` in exact arithmetic), `evaluateWithAI`
zeroes the code-quality, efficiency and understanding components and
recomputes the returned total as `correctness_score + syntax_score`; and
for every parsed response the returned total never exceeds the question's
points. -/
theorem ai_low_correctness_override (points : Int) (p q : AIParsed)
    (h : p.correctness_score * 25 < points) :
    (evalPost points p).code_quality = 0
    ∧ (evalPost points p).efficiency = 0
    ∧ (evalPost points p).understanding = 0
    ∧ (evalPost points p).total_score = min (p.correctness_score + p.syntax_score) points
    ∧ (evalPost points q).total_score ≤ points := by
  refine ⟨?_, ?_, ?_, ?_, ?_⟩
  · simp [evalPost, h]
  · simp [evalPost, h]
  · simp [evalPost, h]
  · simp [evalPost, h]
  · simp only [evalPost]
    exact min_le_right _ _

/-- Claim C10 witness: the theorem instantiated at a concrete parsed
response with correctness 0 on a ten-point question. -/
theorem ai_low_correctness_override_witness :
    (evalPost 10 aiDemo).code_quality = 0
    ∧ (evalPost 10 aiDemo).efficiency = 0
    ∧ (evalPost 10 aiDemo).understanding = 0
    ∧ (evalPost 10 aiDemo).total_score = min (aiDemo.correctness_score + aiDemo.syntax_score) 10
    ∧ (evalPost 10 aiDemo).total_score ≤ 10 :=
  ai_low_correctness_override 10 aiDemo aiDemo (by decide)

/-- Claim C8: when the AI grading adapter fails or returns a malformed
response, the POST handler recovers locally (the response is still a
success carrying a numeric score) and falls back deterministically to
`Math.round(points * 0.1)` exactly when the execution verdict indicates
successful compilation, and 0 otherwise. -/
theorem ai_failure_fallback (code : String) (langId : Nat) (points : Int)
    (judge : JudgeOutcome)
    (hsub : isCodeSubstantial code = true) (hl : langId ≠ 0)
    (hj : judgeDescConsistent judge) :
    (gradeRoute code langId points judge AIOutcome.failed).success = true
    ∧ (gradeRoute code langId points judge AIOutcome.failed).badRequest = false
    ∧ (gradeRoute code langId points judge AIOutcome.failed).totalScore
        = (if judgeAccepted judge = true then roundTenth points else 0) := by
  have hne : ¬ (code = "" ∨ langId = 0) := by
    rintro (hc | hc)
    · rw [hc] at hsub
      exact absurd hsub (by decide)
    · exact hl hc
  unfold gradeRoute
  rw [if_neg hne, if_neg (by simp [hsub])]
  refine ⟨rfl, rfl, ?_⟩
  by_cases hacc : judgeAccepted judge = true
  · rw [if_pos hacc]
    simp only []
    rw [if_pos ((acceptedStatus_iff judge hj).mpr hacc)]
  · rw [if_neg hacc]
    simp only []
    rw [if_neg (fun hc => hacc ((acceptedStatus_iff judge hj).mp hc))]

/-- Claim C8 witness: the theorem instantiated at a substantial submission
with an accepted verdict: the fallback awards `Math.round(10 * 0.1) = 1`. -/
theorem ai_failure_fallback_witness :
    (gradeRoute "x = 1" 71 10 (JudgeOutcome.ok 3 "Accepted") AIOutcome.failed).success = true
    ∧ (gradeRoute "x = 1" 71 10 (JudgeOutcome.ok 3 "Accepted") AIOutcome.failed).badRequest = false
    ∧ (gradeRoute "x = 1" 71 10 (JudgeOutcome.ok 3 "Accepted") AIOutcome.failed).totalScore
        = (if judgeAccepted (JudgeOutcome.ok 3 "Accepted") = true then roundTenth 10 else 0) :=
  ai_failure_fallback "x = 1" 71 10 (JudgeOutcome.ok 3 "Accepted") (by decide) (by decide)
    (by intro h; exact absurd h (by decide))

/-- Claim C2: across every sequence of persistence calls — autosaves
(`createOrUpdateAttempt`, which writes `score := Σ points_earned`) and
per-question grading events (`runCode`, which overwrites one question's
points and writes the substitution-based total) — the score stored on the
attempt row always equals the sum of the current per-question
`points_earned`. -/
theorem persisted_score_eq_sum (ops : List SessionOp) (s : CodingSession)
    (h : scoreOk s = true) : scoreOk (sessionRun ops s) = true := by
  induction ops generalizing s with
  | nil => exact h
  | cons op rest ih =>
    show scoreOk (sessionRun rest (sessionStep op s)) = true
    apply ih
    cases op with
    | recordProgress =>
      simp [sessionStep, scoreOk]
    | gradingResult qid pts =>
      simp [sessionStep, scoreOk, runCodeTotal_eq]

/-- Claim C2 witness: the theorem instantiated on a two-question attempt
with an autosave, a grading event, and another autosave. -/
theorem persisted_score_eq_sum_witness :
    scoreOk { answers := [{ question_id := 1, points_earned := none },
                          { question_id := 2, points_earned := some 3 }]
              persistedScore := none } = true
    ∧ scoreOk (sessionRun
        [SessionOp.recordProgress, SessionOp.gradingResult 1 5, SessionOp.recordProgress]
        { answers := [{ question_id := 1, points_earned := none },
                      { question_id := 2, points_earned := some 3 }]
          persistedScore := none }) = true :=
  ⟨by decide,
   persisted_score_eq_sum
     [SessionOp.recordProgress, SessionOp.gradingResult 1 5, SessionOp.recordProgress]
     { answers := [{ question_id := 1, points_earned := none },
                   { question_id := 2, points_earned := some 3 }]
       persistedScore := none }
     (by decide)⟩

/-- Claim C1: with the guard clear and no attempt row stored for this
(test, user) pair, the first `submitTest` invocation passes the guard and
sets it synchronously (before any asynchronous work); a second invocation
then observes the guard and returns immediately with no state change; the
persistence phase, run once by the winning invocation, stores exactly one
completed attempt row and appends exactly the one set of answer rows. -/
theorem submit_guard_exactly_one_submission
    (s : MCQSession) (testId userId timeTaken : Nat) (qs : List Question)
    (uas : List UserAnswer) (db : DB) (ds : List DetailedAnswer)
    (hGuard : s.submissionInProgress = false) (hSub : s.testSubmitted = false)
    (hUser : s.userPresent = true) (hTD : s.testDataPresent = true)
    (hNo : db.attempts.any (fun r => r.testId == testId && r.userId == userId) = false)
    (hDs : detailedAnswers qs uas = some ds) :
    (submitTestSync s).2 = true
    ∧ submitTestSync (submitTestSync s).1 = ((submitTestSync s).1, false)
    ∧ completedCount (mcqSubmitAsync testId userId qs uas timeTaken db).1 testId userId = 1
    ∧ (mcqSubmitAsync testId userId qs uas timeTaken db).1.userAnswers
        = db.userAnswers ++ answerRowsOf db.nextAttemptId ds
    ∧ (mcqSubmitAsync testId userId qs uas timeTaken db).2
        = MCQOutcome.completed (detailedScore ds) := by
  have hcond : (s.submissionInProgress || s.testSubmitted
      || !s.userPresent || !s.testDataPresent) = false := by
    simp [hGuard, hSub, hUser, hTD]
  have hfil : db.attempts.filter
      (fun r => r.testId == testId && r.userId == userId && r.completed) = [] := by
    rw [List.filter_eq_nil_iff]
    intro r hr hc
    simp only [Bool.and_eq_true] at hc
    have h1 : (fun r : AttemptRow => r.testId == testId && r.userId == userId) r = true := by
      simp [hc.1.1, hc.1.2]
    have h2 : db.attempts.any (fun r => r.testId == testId && r.userId == userId) = true :=
      List.any_eq_true.mpr ⟨r, hr, h1⟩
    rw [hNo] at h2
    exact absurd h2 (by decide)
  refine ⟨?_, ?_, ?_, ?_, ?_⟩
  · cases hw : s.warningTimer <;> simp [submitTestSync, hcond, hw]
  · cases hw : s.warningTimer <;> simp [submitTestSync, hcond, hw]
  · simp only [mcqSubmitAsync, hNo, Bool.false_eq_true, if_false, hDs]
    simp [completedCount, List.filter_append, hfil]
  · simp only [mcqSubmitAsync, hNo, Bool.false_eq_true, if_false, hDs]
  · simp only [mcqSubmitAsync, hNo, Bool.false_eq_true, if_false, hDs]

/-- Claim C1 witness: the theorem instantiated at a clear session, an empty
database and a one-question test answered correctly. -/
theorem submit_guard_exactly_one_submission_witness :
    (submitTestSync (warnInit none 10 0)).2 = true
    ∧ submitTestSync (submitTestSync (warnInit none 10 0)).1
        = ((submitTestSync (warnInit none 10 0)).1, false)
    ∧ completedCount
        (mcqSubmitAsync 5 9 [qB4] [{ question_id := 1, selected_answer := some AnswerOption.B }]
          2 { attempts := [], userAnswers := [], nextAttemptId := 0 }).1 5 9 = 1
    ∧ (mcqSubmitAsync 5 9 [qB4] [{ question_id := 1, selected_answer := some AnswerOption.B }]
        2 { attempts := [], userAnswers := [], nextAttemptId := 0 }).1.userAnswers
        = [] ++ answerRowsOf 0
            [{ question_id := 1, selected_answer := some AnswerOption.B,
               is_correct := true, points_earned := 4 }]
    ∧ (mcqSubmitAsync 5 9 [qB4] [{ question_id := 1, selected_answer := some AnswerOption.B }]
        2 { attempts := [], userAnswers := [], nextAttemptId := 0 }).2
        = MCQOutcome.completed (detailedScore
            [{ question_id := 1, selected_answer := some AnswerOption.B,
               is_correct := true, points_earned := 4 }]) :=
  submit_guard_exactly_one_submission (warnInit none 10 0) 5 9 2 [qB4]
    [{ question_id := 1, selected_answer := some AnswerOption.B }]
    { attempts := [], userAnswers := [], nextAttemptId := 0 }
    [{ question_id := 1, selected_answer := some AnswerOption.B,
       is_correct := true, points_earned := 4 }]
    rfl rfl rfl rfl (by decide) (by decide)

set_option maxRecDepth 4000 in
/-- Claim C3 counterexample: with `durationSeconds = 60` and
`startedAt = now - 90s`, the resume computation does yield 0 remaining
seconds, but the timer effect's gate (`timeLeft <= 0`) then prevents the
interval from ever starting, so `submit(timeUp)` fires zero times — not
exactly once as the claim states. -/
theorem timer_claim_counterexample :
    loadTimeLeft 1 0 90 = 0
    ∧ (runSeconds 120 (timerRunning (loadTimeLeft 1 0 90) 0)).submitCalls = 0
    ∧ ¬ ((runSeconds 120 (timerRunning (loadTimeLeft 1 0 90) 0)).submitCalls = 1) := by
  refine ⟨by decide, by decide, by decide⟩

/-- Claim C3 (amended): the remaining time is computed from the wall clock
only at load/resume (`max(0, durationSeconds - elapsed)`); the running timer
instead decrements an accumulated counter by one per tick.  A running timer
with `k > 0` seconds left has submitted exactly once after any `n ≥ k`
ticks, and after `j < k` ticks shows `k - j` seconds with no submit call
yet; when the elapsed time already exceeds the duration at load, the
remaining time is 0, the interval never starts, and `submit(timeUp)` never
fires. -/
theorem timer_amended (k n j c limit : Nat) (startedAt now : Int)
    (hk : 0 < k) (hkn : k ≤ n) (hj : j < k)
    (helapsed : (limit : Int) * 60 ≤ now - startedAt) :
    (runSeconds n (timerRunning k c)).submitCalls = c + 1
    ∧ (runSeconds j (timerRunning k c)).submitCalls = c
    ∧ (runSeconds j (timerRunning k c)).timeLeft = k - j
    ∧ loadTimeLeft limit startedAt now = 0
    ∧ (runSeconds n (timerRunning (loadTimeLeft limit startedAt now) c)).submitCalls = c := by
  have h0 : loadTimeLeft limit startedAt now = 0 := by
    unfold loadTimeLeft loadRemaining
    rw [max_eq_left (by omega)]
    rfl
  refine ⟨?_, ?_, ?_, h0, ?_⟩
  · rw [timer_countdown_run k c n hk hkn]
    rfl
  · rw [timer_below j k c hj]
    rfl
  · rw [timer_below j k c hj]
    rfl
  · rw [h0]
    rw [runSeconds_stuck _ (by simp [timerStarts, timerRunning]) n]
    rfl

/-- Claim C3 (amended) witness: the theorem instantiated at a 60-second
countdown observed at tick 30 and tick 100, and a resume 90 seconds into a
1-minute test. -/
theorem timer_amended_witness :
    (runSeconds 100 (timerRunning 60 0)).submitCalls = 0 + 1
    ∧ (runSeconds 30 (timerRunning 60 0)).submitCalls = 0
    ∧ (runSeconds 30 (timerRunning 60 0)).timeLeft = 60 - 30
    ∧ loadTimeLeft 1 0 90 = 0
    ∧ (runSeconds 100 (timerRunning (loadTimeLeft 1 0 90) 0)).submitCalls = 0 :=
  timer_amended 60 100 30 0 1 0 90 (by decide) (by decide) (by decide) (by decide)

/-- Claim C4: for an integrity-warning countdown started by a fullscreen
exit while the attempt is in progress: if the signal returns to the
compliant state after `j ≤ 9` seconds (before the 10-second countdown
expires), the warning clears, the interval is cancelled and no submit call
happens; if the signal never returns, after any `n ≥ 10` seconds exactly
one submit call has happened and the attempt is submitted. -/
theorem integrity_countdown_behavior (w : WarningType) (sw : Option WarningType)
    (cd sc j n : Nat) (hj : j ≤ 9) (hn : 10 ≤ n) :
    (signalReturn w (ticks j (signalLeave w (warnInit sw cd sc)))).showWarning = none
    ∧ (signalReturn w (ticks j (signalLeave w (warnInit sw cd sc)))).liveTimers = []
    ∧ (signalReturn w (ticks j (signalLeave w (warnInit sw cd sc)))).submitCalls = sc
    ∧ (ticks n (signalLeave w (warnInit sw cd sc))).submitCalls = sc + 1
    ∧ (ticks n (signalLeave w (warnInit sw cd sc))).testSubmitted = true := by
  rw [signalLeave_warnInit]
  rw [ticks_warnActive w sc j hj]
  obtain ⟨m, rfl⟩ : ∃ m, n = m + 10 := ⟨n - 10, by omega⟩
  rw [ticks_add m 10, ticks10_warnActive]
  rw [ticks_none m _ rfl]
  cases w
  · exact ⟨rfl, rfl, rfl, rfl, rfl⟩
  · exact ⟨rfl, rfl, rfl, rfl, rfl⟩

/-- Claim C4 witness: the fullscreen signal returns after 5 seconds (no
submit), or never returns and 12 seconds pass (exactly one submit). -/
theorem integrity_countdown_behavior_witness :
    (signalReturn WarningType.fullscreen (ticks 5 (signalLeave WarningType.fullscreen
        (warnInit none 0 0)))).showWarning = none
    ∧ (signalReturn WarningType.fullscreen (ticks 5 (signalLeave WarningType.fullscreen
        (warnInit none 0 0)))).liveTimers = []
    ∧ (signalReturn WarningType.fullscreen (ticks 5 (signalLeave WarningType.fullscreen
        (warnInit none 0 0)))).submitCalls = 0
    ∧ (ticks 12 (signalLeave WarningType.fullscreen (warnInit none 0 0))).submitCalls = 0 + 1
    ∧ (ticks 12 (signalLeave WarningType.fullscreen (warnInit none 0 0))).testSubmitted = true :=
  integrity_countdown_behavior WarningType.fullscreen none 0 0 5 12 (by decide) (by decide)

/-- Claim C5 counterexample: in a fullscreen warning with 5 seconds left, a
second signal (the tab also becomes hidden) calls `startWarningCountdown`
again, which resets the countdown to 10 — the countdown in progress does
not continue to govern, contradicting the claim that its remaining time is
not reset. -/
theorem warning_reset_counterexample :
    warningStateFive.countdown = 5
    ∧ warningStateFive.showWarning = some WarningType.fullscreen
    ∧ (handleVisibilityChange true warningStateFive).countdown = 10
    ∧ ¬ ((handleVisibilityChange true warningStateFive).countdown = 5) := by
  refine ⟨rfl, rfl, rfl, by decide⟩

/-- Claim C5 (amended): at most one integrity countdown interval is ever
live (every path that starts a countdown or submits first clears the tracked
interval), but a second signal firing while already in `Warning` restarts
the countdown: the warning switches to the new signal and the remaining
time is reset to 10 seconds. -/
theorem single_countdown_amended (evs : List MCQEvent) (s0 s : MCQSession) (w : WarningType)
    (hInv : TimerInv s0) (h1 : s.testSubmitted = false) (h2 : s.submissionInProgress = false) :
    TimerInv (mcqRun evs s0)
    ∧ (mcqRun evs s0).liveTimers.length ≤ 1
    ∧ (startWarningCountdown w s).countdown = 10
    ∧ (startWarningCountdown w s).showWarning = some w := by
  have hI := inv_mcqRun evs s0 hInv
  refine ⟨hI, ?_, ?_, ?_⟩
  · unfold TimerInv at hI
    rw [hI]
    cases (mcqRun evs s0).warningTimer <;> simp [timerList]
  · unfold startWarningCountdown
    rw [if_neg (by simp [h1, h2])]
    cases hw : s.warningTimer <;> simp [hw]
  · unfold startWarningCountdown
    rw [if_neg (by simp [h1, h2])]
    cases hw : s.warningTimer <;> simp [hw]

/-- Claim C5 (amended) witness: the theorem instantiated on a concrete event
trace (warning started, one tick, second signal, another tick) and a clear
session receiving a visibility warning. -/
theorem single_countdown_amended_witness :
    TimerInv (mcqRun [MCQEvent.fullscreenChange false, MCQEvent.intervalTick 0,
        MCQEvent.visibilityChange true, MCQEvent.intervalTick 1] (warnInit none 0 0))
    ∧ (mcqRun [MCQEvent.fullscreenChange false, MCQEvent.intervalTick 0,
        MCQEvent.visibilityChange true, MCQEvent.intervalTick 1]
        (warnInit none 0 0)).liveTimers.length ≤ 1
    ∧ (startWarningCountdown WarningType.visibility (warnInit none 0 0)).countdown = 10
    ∧ (startWarningCountdown WarningType.visibility (warnInit none 0 0)).showWarning
        = some WarningType.visibility :=
  single_countdown_amended
    [MCQEvent.fullscreenChange false, MCQEvent.intervalTick 0,
     MCQEvent.visibilityChange true, MCQEvent.intervalTick 1]
    (warnInit none 0 0) (warnInit none 0 0) WarningType.visibility
    rfl rfl rfl

/-- Claim C7 counterexample: the unmodified Python template contains a
substantial line (`print(...)`), so `isCodeSubstantial` accepts it and the
grading route calls both the execution and the grading adapter on it; the
client-side template check in `runCode` does block it before any network
call, but then awards nothing and records no canned explanation — a
previously stored `points_earned` (here 3) is left unchanged rather than
set to 0.  Both paths contradict the claim for template-identical
submissions. -/
theorem trivial_precheck_counterexample :
    isCodeSubstantial (DEFAULT_CODE_TEMPLATES 71) = true
    ∧ (gradeRoute (DEFAULT_CODE_TEMPLATES 71) 71 10
        (JudgeOutcome.ok 3 "Accepted") AIOutcome.failed).judgeCalled = true
    ∧ (gradeRoute (DEFAULT_CODE_TEMPLATES 71) 71 10
        (JudgeOutcome.ok 3 "Accepted") AIOutcome.failed).aiCalled = true
    ∧ (runCodeStep [{ question_id := 7, points_earned := some 3 }] 7
        (DEFAULT_CODE_TEMPLATES 71) 71 10
        (gradeRoute (DEFAULT_CODE_TEMPLATES 71) 71 10
          (JudgeOutcome.ok 3 "Accepted") AIOutcome.failed)).1
        = [{ question_id := 7, points_earned := some 3 }]
    ∧ (runCodeStep [{ question_id := 7, points_earned := some 3 }] 7
        (DEFAULT_CODE_TEMPLATES 71) 71 10
        (gradeRoute (DEFAULT_CODE_TEMPLATES 71) 71 10
          (JudgeOutcome.ok 3 "Accepted") AIOutcome.failed)).2 = false := by
  refine ⟨by decide, by decide, by decide, by decide, by decide⟩

/-- Claim C7 (amended): a non-empty submission whose lines are all blank or
comments is rejected by the grading route with score 0, the canned
explanation, and no adapter call; a submission identical to the unmodified
language template is instead blocked in the client (`runCode`) before any
network request, leaving the stored answers unchanged and awarding nothing —
the route itself does not check templates. -/
theorem trivial_precheck_amended
    (code : String) (langId : Nat) (points : Int) (judge : JudgeOutcome) (ai : AIOutcome)
    (answers : List CodingAnswer) (qid qPoints l : Nat) (r : RouteResult)
    (hcode : isCodeSubstantial code = false) (hne : code ≠ "") (hl : langId ≠ 0)
    (hlang : l = 50 ∨ l = 54 ∨ l = 62 ∨ l = 63 ∨ l = 71) :
    (gradeRoute code langId points judge ai).totalScore = 0
    ∧ (gradeRoute code langId points judge ai).success = true
    ∧ (gradeRoute code langId points judge ai).judgeCalled = false
    ∧ (gradeRoute code langId points judge ai).aiCalled = false
    ∧ (gradeRoute code langId points judge ai).feedback
        = "Your submission was either empty or only contained comments. Please write a functional solution."
    ∧ runCodeBlocked (DEFAULT_CODE_TEMPLATES l) l = true
    ∧ (runCodeStep answers qid (DEFAULT_CODE_TEMPLATES l) l qPoints r).1 = answers
    ∧ (runCodeStep answers qid (DEFAULT_CODE_TEMPLATES l) l qPoints r).2 = false := by
  have hb : runCodeBlocked (DEFAULT_CODE_TEMPLATES l) l = true := by
    rcases hlang with h | h | h | h | h <;> subst h <;> decide
  have htne : ¬ (DEFAULT_CODE_TEMPLATES l = "") := by
    rcases hlang with h | h | h | h | h <;> subst h <;> decide
  have hr : gradeRoute code langId points judge ai
      = { badRequest := false
          success := true
          compilationStatus := "No substantial code submitted."
          totalScore := 0
          judgeCalled := false
          aiCalled := false
          feedback := "Your submission was either empty or only contained comments. Please write a functional solution." } := by
    unfold gradeRoute
    rw [if_neg (by rintro (hc | hc); exact hne hc; exact hl hc), if_pos hcode]
  have hstep : runCodeStep answers qid (DEFAULT_CODE_TEMPLATES l) l qPoints r
      = (answers, false) := by
    unfold runCodeStep
    rw [if_neg htne, if_pos hb]
  refine ⟨by rw [hr], by rw [hr], by rw [hr], by rw [hr], by rw [hr], hb,
    by rw [hstep], by rw [hstep]⟩

/-- Claim C7 (amended) witness: the theorem instantiated at a comment-only
submission and the C++ template. -/
theorem trivial_precheck_amended_witness :
    (gradeRoute "// comment only\n   " 63 5 JudgeOutcome.svcError AIOutcome.failed).totalScore = 0
    ∧ (gradeRoute "// comment only\n   " 63 5 JudgeOutcome.svcError AIOutcome.failed).success = true
    ∧ (gradeRoute "// comment only\n   " 63 5 JudgeOutcome.svcError AIOutcome.failed).judgeCalled = false
    ∧ (gradeRoute "// comment only\n   " 63 5 JudgeOutcome.svcError AIOutcome.failed).aiCalled = false
    ∧ (gradeRoute "// comment only\n   " 63 5 JudgeOutcome.svcError AIOutcome.failed).feedback
        = "Your submission was either empty or only contained comments. Please write a functional solution."
    ∧ runCodeBlocked (DEFAULT_CODE_TEMPLATES 54) 54 = true
    ∧ (runCodeStep [] 0 (DEFAULT_CODE_TEMPLATES 54) 54 5
        { badRequest := false, success := true, compilationStatus := "Accepted", totalScore := 3,
          judgeCalled := true, aiCalled := true, feedback := "ok" }).1 = []
    ∧ (runCodeStep [] 0 (DEFAULT_CODE_TEMPLATES 54) 54 5
        { badRequest := false, success := true, compilationStatus := "Accepted", totalScore := 3,
          judgeCalled := true, aiCalled := true, feedback := "ok" }).2 = false :=
  trivial_precheck_amended "// comment only\n   " 63 5 JudgeOutcome.svcError AIOutcome.failed
    [] 0 5 54
    { badRequest := false, success := true, compilationStatus := "Accepted", totalScore := 3,
      judgeCalled := true, aiCalled := true, feedback := "ok" }
    (by decide) (by decide) (by decide) (by tauto)

/-- Claim C9 counterexample: in the coding-test submit, a duplicate
submission (unique-constraint conflict on the completed-attempt insert) is
surfaced as a user-facing `Error submitting test: ...` alert with no
redirect to the results page, contradicting the claim that duplicates are
always redirected and never surfaced as failures. -/
theorem duplicate_submission_counterexample :
    (codingSubmitTest cleanFlags true).errorAlert
        = some "Error submitting test: You have already submitted this test."
    ∧ (codingSubmitTest cleanFlags true).redirectedToViewMarks = false := by
  refine ⟨rfl, rfl⟩

/-- Claim C9 (amended): the MCQ `submitTest` treats an existing attempt row
for the (test, user) pair as a redirect to `/view-marks` (no error, no
database change); the coding-test `submitTest` instead surfaces the
duplicate as an error alert, resets the reentrancy guard, inserts nothing
and does not redirect. -/
theorem duplicate_submission_amended
    (f : CodingFlags) (testId userId timeTaken : Nat) (qs : List Question)
    (uas : List UserAnswer) (db : DB)
    (hdup : db.attempts.any (fun r => r.testId == testId && r.userId == userId) = true)
    (h1 : f.submissionInProgress = false) (h2 : f.testSubmitted = false)
    (h3 : f.userPresent = true) (h4 : f.testDataPresent = true) :
    mcqSubmitAsync testId userId qs uas timeTaken db = (db, MCQOutcome.redirectedToViewMarks)
    ∧ (codingSubmitTest f true).errorAlert
        = some "Error submitting test: You have already submitted this test."
    ∧ (codingSubmitTest f true).redirectedToViewMarks = false
    ∧ (codingSubmitTest f true).attemptInserted = false
    ∧ (codingSubmitTest f true).flags.submissionInProgress = false
    ∧ (codingSubmitTest f true).flags.testSubmitted = false := by
  have hcond : (f.submissionInProgress || f.testSubmitted
      || !f.userPresent || !f.testDataPresent) = false := by
    simp [h1, h2, h3, h4]
  refine ⟨by simp [mcqSubmitAsync, hdup], ?_, ?_, ?_, ?_, ?_⟩ <;>
    simp [codingSubmitTest, hcond]

/-- Claim C9 (amended) witness: the theorem instantiated at a database
holding a completed attempt for test 5 by user 9 and clear coding-submit
flags. -/
theorem duplicate_submission_amended_witness :
    mcqSubmitAsync 5 9 [qB4] [{ question_id := 1, selected_answer := some AnswerOption.B }] 2 dupDB
        = (dupDB, MCQOutcome.redirectedToViewMarks)
    ∧ (codingSubmitTest cleanFlags true).errorAlert
        = some "Error submitting test: You have already submitted this test."
    ∧ (codingSubmitTest cleanFlags true).redirectedToViewMarks = false
    ∧ (codingSubmitTest cleanFlags true).attemptInserted = false
    ∧ (codingSubmitTest cleanFlags true).flags.submissionInProgress = false
    ∧ (codingSubmitTest cleanFlags true).flags.testSubmitted = false :=
  duplicate_submission_amended cleanFlags 5 9 2 [qB4]
    [{ question_id := 1, selected_answer := some AnswerOption.B }] dupDB
    (by decide) rfl rfl rfl rfl

end Invigilo
